import Mathlib

/-!
Verification of the refill-request work hand-off subsystem
(`server.py`, `print_agent.py`): the request store and its state machine,
the claim protocol, and the deterministic ZPL label renderer.

The store directory (`stores.py`, `STORES`) is not part of the sources;
every definition that needs it takes the list of known store ids as an
explicit parameter, since the claims depend only on membership in it.
-/

namespace Refill

/-- Status values stored in the `status` column of `refill_requests`
(`server.py`, table schema: `'pending'`, `'printing'`, `'printed'`). -/
inductive Status where
  | pending
  | printing
  | printed
deriving DecidableEq

/-- One row of the `refill_requests` table (`server.py` `init_db`):
`id, rx_number, store_id, status, created_at, printed_at, patient_name`.
All columns are TEXT; `printed_at` is nullable. -/
structure Rec where
  id : String
  rx_number : String
  store_id : String
  status : Status
  created_at : String
  printed_at : Option String
  patient_name : String
deriving DecidableEq

/-- The projection of a row returned by `GET /api/pending/{store_id}`
(`server.py` `get_pending`): `id, rx_number, store_id, created_at, patient_name`. -/
structure Snapshot where
  id : String
  rx_number : String
  store_id : String
  created_at : String
  patient_name : String
deriving DecidableEq

/-- Projection of a table row to the fields `get_pending` selects and returns. -/
def snapshotOf (r : Rec) : Snapshot :=
  ⟨r.id, r.rx_number, r.store_id, r.created_at, r.patient_name⟩

/-- Model of Python `str.strip()`: drop leading and trailing whitespace
(as used on `rx_number`, `store_id` and `patient_name` in `server.py`). -/
def pyStrip (s : String) : String :=
  ⟨((s.data.dropWhile Char.isWhitespace).reverse.dropWhile Char.isWhitespace).reverse⟩

/-- The `validate_rx_number` field validator of `server.py` (lines 84-94):
strip, then reject when not all digits (Python `v.isdigit()`, false on the
empty string), then when the length is not 7, then when the first character
(`v[0]`) is not one of `"2468"`. -/
def validate_rx_number (v : String) : Except String String :=
  if (pyStrip v).data.isEmpty || !((pyStrip v).data.all Char.isDigit) then
    .error "Prescription number must contain only digits"
  else if (pyStrip v).data.length ≠ 7 then
    .error "Prescription number must be exactly 7 digits"
  else if !(['2', '4', '6', '8'].contains ((pyStrip v).data.headD ' ')) then
    .error "Prescription number must start with 2, 4, 6, or 8"
  else
    .ok (pyStrip v)

/-- The `validate_store_id` field validator of `server.py` (lines 96-102):
strip, then require membership in `STORES`. -/
def validate_store_id (stores : List String) (v : String) : Except String String :=
  if pyStrip v ∈ stores then .ok (pyStrip v)
  else .error ("Invalid store: " ++ pyStrip v)

/-- Result values of the request handlers are compared in witnesses, so give
them decidable equality. -/
instance {ε α : Type} [DecidableEq ε] [DecidableEq α] :
    DecidableEq (Except ε α) := fun a b =>
  match a, b with
  | .error e, .error f =>
    if h : e = f then .isTrue (by rw [h]) else .isFalse (by intro hc; cases hc; exact h rfl)
  | .error _, .ok _ => .isFalse (by intro hc; cases hc)
  | .ok _, .error _ => .isFalse (by intro hc; cases hc)
  | .ok x, .ok y =>
    if h : x = y then .isTrue (by rw [h]) else .isFalse (by intro hc; cases hc; exact h rfl)

/-- The `POST /api/refill` handler `submit_refill` together with the pydantic
validation of its `RefillRequest` body (`server.py` lines 79-142).  Validation
runs before the handler; on failure the handler never executes and nothing is
inserted.  On success one new row is inserted with status `'pending'`,
`printed_at` NULL, and the stripped field values; `newId` stands for
`str(uuid.uuid4())[:8]` and `now` for `datetime.now(timezone.utc).isoformat()`. -/
def submit (stores : List String) (db : List Rec) (rx sid nm : String)
    (newId now : String) : Except String (String × List Rec) :=
  match validate_rx_number rx with
  | .error e => .error e
  | .ok rx' =>
    match validate_store_id stores sid with
    | .error e => .error e
    | .ok sid' =>
      .ok (newId, db ++ [⟨newId, rx', sid', Status.pending, now, none, pyStrip nm⟩])

/-- Row filter of the SELECT in `get_pending` (`server.py` lines 155-161):
`WHERE store_id = ? AND status = 'pending'`. -/
def pendingFor (sid : String) (r : Rec) : Prop :=
  r.store_id = sid ∧ r.status = Status.pending

instance (sid : String) (r : Rec) : Decidable (pendingFor sid r) := by
  unfold pendingFor; infer_instance

/-- Lexicographic order on character lists: SQLite's default BINARY collation
compares TEXT values bytewise, which on valid UTF-8 is exactly the
lexicographic order on code points. -/
def strLeChars : List Char → List Char → Bool
  | [], _ => true
  | _ :: _, [] => false
  | a :: as, b :: bs => if a = b then strLeChars as bs else decide (a < b)

/-- The `ORDER BY created_at ASC` comparison of `get_pending`: BINARY
collation on the `created_at` TEXT column. -/
def createdLe (a b : Rec) : Bool := strLeChars a.created_at.data b.created_at.data

/-- The `ORDER BY` comparison as a decidable relation. -/
def recCreatedLe (a b : Rec) : Prop := createdLe a b = true

instance : DecidableRel recCreatedLe := fun a b =>
  inferInstanceAs (Decidable (createdLe a b = true))

/-- The SELECT statement of `get_pending`: all rows of the given store with
status `'pending'`, `ORDER BY created_at ASC` (any sort implements the SQL
ordering, which promises nothing about ties). -/
def selectPending (db : List Rec) (sid : String) : List Rec :=
  List.insertionSort recCreatedLe (db.filter (fun r => decide (pendingFor sid r)))

/-- The `ids` list built from the selected rows (`server.py` line 168). -/
def claimIds (rows : List Rec) : List String := rows.map Rec.id

/-- The UPDATE statement of `get_pending` (`server.py` lines 171-175):
`SET status = 'printing', printed_at = ? WHERE id IN (...)`. -/
def applyClaim (db : List Rec) (ids : List String) (now : String) : List Rec :=
  db.map (fun r =>
    if r.id ∈ ids then { r with status := Status.printing, printed_at := some now }
    else r)

/-- The `GET /api/pending/{store_id}` handler `get_pending` (`server.py`
lines 145-190): 404 for an unknown store; otherwise SELECT the pending rows,
return `{"requests": []}` untouched when there are none, else UPDATE them to
`'printing'` with `printed_at` stamped and return the pre-update snapshots.
`now` stands for `datetime.now(timezone.utc).isoformat()`. -/
def get_pending (stores : List String) (db : List Rec) (sid : String)
    (now : String) : Except Unit (List Snapshot × List Rec) :=
  if sid ∉ stores then .error () else
  let rows := selectPending db sid
  if rows.isEmpty then .ok ([], db)
  else .ok (rows.map snapshotOf, applyClaim db (claimIds rows) now)

/-- Per-row effect of the UPDATE in `mark_printed` (`server.py` line 198):
`SET status = 'printed' WHERE id = ?` — unconditional on the current status. -/
def markPrintedRec (rid : String) (r : Rec) : Rec :=
  if r.id = rid then { r with status := Status.printed } else r

/-- The `POST /api/printed/{request_id}` handler `mark_printed`
(`server.py` lines 193-203). -/
def mark_printed (db : List Rec) (rid : String) : List Rec :=
  db.map (markPrintedRec rid)

/-- Per-row effect of the UPDATE in `mark_print_error` (`server.py` line 211):
`SET status = 'pending', printed_at = NULL WHERE id = ?` — unconditional on
the current status. -/
def markPrintErrorRec (rid : String) (r : Rec) : Rec :=
  if r.id = rid then { r with status := Status.pending, printed_at := none } else r

/-- The `POST /api/print-error/{request_id}` handler `mark_print_error`
(`server.py` lines 206-216). -/
def mark_print_error (db : List Rec) (rid : String) : List Rec :=
  db.map (markPrintErrorRec rid)

/-! Calendar arithmetic and timestamp handling for the label renderer
(`print_agent.py` lines 61-66).  Python `datetime` values are modelled as
civil date-time tuples; `datetime.astimezone` is modelled as a minute shift
with the `datetime` range bound (years 1 to 9999, outside of which CPython
raises `OverflowError`, caught by the `except` of `generate_zpl_label`). -/

/-- Civil date-time: the fields of a Python `datetime` value that the label
renderer can observe (microseconds never reach the `%M`-precision output). -/
structure Civil where
  year : Nat
  month : Nat
  day : Nat
  hour : Nat
  minute : Nat
  second : Nat
deriving DecidableEq

/-- Days since 1970-01-01 of a civil date (standard civil-from-days inverse,
floor division throughout). -/
def daysFromCivil (y m d : Int) : Int :=
  let y := if m ≤ 2 then y - 1 else y
  let era := y.fdiv 400
  let yoe := y - era * 400
  let doy := (153 * (if 2 < m then m - 3 else m + 9) + 2).fdiv 5 + d - 1
  let doe := yoe * 365 + yoe.fdiv 4 - yoe.fdiv 100 + doy
  era * 146097 + doe - 719468

/-- Civil date of a days-since-1970 count (inverse of `daysFromCivil`). -/
def civilFromDays (z0 : Int) : Int × Int × Int :=
  let z := z0 + 719468
  let era := z.fdiv 146097
  let doe := z - era * 146097
  let yoe := (doe - doe.fdiv 1460 + doe.fdiv 36524 - doe.fdiv 146096).fdiv 365
  let y := yoe + era * 400
  let doy := doe - (365 * yoe + yoe.fdiv 4 - yoe.fdiv 100)
  let mp := (5 * doy + 2).fdiv 153
  let d := doy - (153 * mp + 2).fdiv 5 + 1
  let m := if mp < 10 then mp + 3 else mp - 9
  (if m ≤ 2 then y + 1 else y, m, d)

/-- Shift a civil date-time by a number of minutes.  Returns `none` when the
result leaves the Python `datetime` range (year 1 to 9999), where CPython
raises `OverflowError`. -/
def shiftCivil (c : Civil) (delta : Int) : Option Civil :=
  let total := daysFromCivil c.year c.month c.day * 1440
    + ((c.hour * 60 + c.minute : Nat) : Int) + delta
  let days := total.fdiv 1440
  let mins := (total - days * 1440).toNat
  match civilFromDays days with
  | (y, m, d) =>
    if 1 ≤ y ∧ y ≤ 9999 then
      some ⟨y.toNat, m.toNat, d.toNat, mins / 60, mins % 60, c.second⟩
    else none

/-- Numeric value of a digit string. -/
def digitsToNat (cs : List Char) : Nat :=
  cs.foldl (fun a c => a * 10 + (c.toNat - 48)) 0

/-- Parse a run of exactly `len` digits. -/
def parseNatDigits (cs : List Char) (len : Nat) : Option Nat :=
  if cs.length = len ∧ cs.all Char.isDigit then some (digitsToNat cs) else none

/-- Split a character list at every occurrence of `sep` (the list analogue of
`str.split`). -/
def splitOnChar (sep : Char) : List Char → List (List Char)
  | [] => [[]]
  | c :: rest =>
    let r := splitOnChar sep rest
    if c = sep then [] :: r
    else
      match r with
      | [] => [[c]]
      | h :: t => (c :: h) :: t

/-- Gregorian leap-year rule. -/
def isLeapYear (y : Nat) : Bool :=
  (y % 4 = 0 && y % 100 ≠ 0) || y % 400 = 0

/-- Length of a month, as validated by `datetime.fromisoformat`. -/
def daysInMonth (y m : Nat) : Nat :=
  if m = 2 then (if isLeapYear y then 29 else 28)
  else if m = 4 ∨ m = 6 ∨ m = 9 ∨ m = 11 then 30 else 31

/-- Parse `YYYY-MM-DD` with range validation, as `datetime.fromisoformat`
validates its date part. -/
def parseDate (cs : List Char) : Option (Nat × Nat × Nat) :=
  match splitOnChar '-' cs with
  | [ys, ms, ds] => do
    let y ← parseNatDigits ys 4
    let m ← parseNatDigits ms 2
    let d ← parseNatDigits ds 2
    if 1 ≤ y ∧ 1 ≤ m ∧ m ≤ 12 ∧ 1 ≤ d ∧ d ≤ daysInMonth y m then pure (y, m, d)
    else none
  | _ => none

/-- Parse the seconds field `SS` or `SS.ffffff` (fractional digits are
validated and discarded; they never reach the minute-precision label). -/
def parseSecondField (cs : List Char) : Option Nat :=
  match splitOnChar '.' cs with
  | [ss] => parseNatDigits ss 2
  | [ss, fs] => do
    let s ← parseNatDigits ss 2
    if !fs.isEmpty && fs.all Char.isDigit then pure s else none
  | _ => none

/-- Parse `HH:MM`, `HH:MM:SS` or `HH:MM:SS.ffffff` with range validation. -/
def parseTimeOfDay (cs : List Char) : Option (Nat × Nat × Nat) :=
  match splitOnChar ':' cs with
  | [hs, ms] => do
    let h ← parseNatDigits hs 2
    let mi ← parseNatDigits ms 2
    if h ≤ 23 ∧ mi ≤ 59 then pure (h, mi, 0) else none
  | [hs, ms, ss] => do
    let h ← parseNatDigits hs 2
    let mi ← parseNatDigits ms 2
    let s ← parseSecondField ss
    if h ≤ 23 ∧ mi ≤ 59 ∧ s ≤ 59 then pure (h, mi, s) else none
  | _ => none

/-- Parse a UTC offset `±HH:MM` (or `±HH:MM:SS`; sub-minute offset precision
is validated and discarded), in minutes. -/
def parseOffset (cs : List Char) : Option Int :=
  match cs with
  | [] => none
  | sign :: rest =>
    if sign = '+' ∨ sign = '-' then do
      let (h, mi, _s) ← parseTimeOfDay rest
      let total : Int := (h * 60 + mi : Nat)
      pure (if sign = '-' then -total else total)
    else none

/-- Split the time-of-day part from a trailing UTC offset (the offset starts
at the first `+` or `-`; neither occurs in the time-of-day part). -/
def findOffsetSplit (cs : List Char) : List Char × Option (List Char) :=
  match cs.findIdx? (fun c => c == '+' || c == '-') with
  | none => (cs, none)
  | some i => (cs.take i, some (cs.drop i))

/-- Model of `datetime.fromisoformat` on the ISO-8601 forms this system
produces and exchanges: `YYYY-MM-DD`, optionally followed by `T` or a space
and `HH:MM[:SS[.ffffff]]`, optionally followed by a `±HH:MM[:SS]` offset.
Returns the civil fields and the offset in minutes (`none` when naive);
returns `none` on anything malformed (where CPython raises `ValueError`). -/
def fromisoformat (s : String) : Option (Civil × Option Int) :=
  let cs := s.data
  if cs.length < 10 then none
  else do
    let (y, m, d) ← parseDate (cs.take 10)
    match cs.drop 10 with
    | [] => pure (⟨y, m, d, 0, 0, 0⟩, none)
    | sep :: rest =>
      if sep = 'T' ∨ sep = ' ' then
        match findOffsetSplit rest with
        | (tp, none) => do
          let (h, mi, sec) ← parseTimeOfDay tp
          pure (⟨y, m, d, h, mi, sec⟩, none)
        | (tp, some off) => do
          let (h, mi, sec) ← parseTimeOfDay tp
          let o ← parseOffset off
          pure (⟨y, m, d, h, mi, sec⟩, some o)
      else none

/-- Model of `created_at.replace("Z", "+00:00")` (`print_agent.py` line 63);
the needle is the single character `Z`, so this is a per-character expansion. -/
def replaceZ (s : String) : String :=
  ⟨s.data.flatMap (fun c => if c = 'Z' then "+00:00".data else [c])⟩

/-- Hour in the 12-hour clock, as `strftime("%I")` renders it. -/
def hour12 (h : Nat) : Nat := if h % 12 = 0 then 12 else h % 12

/-- Zero-pad to two digits. -/
def pad2 (n : Nat) : String := if n < 10 then "0" ++ toString n else toString n

/-- Zero-pad to four digits (`strftime("%Y")` in CPython). -/
def pad4 (n : Nat) : String :=
  if n < 10 then "000" ++ toString n
  else if n < 100 then "00" ++ toString n
  else if n < 1000 then "0" ++ toString n
  else toString n

/-- Model of `strftime("%m/%d/%Y %I:%M %p")` (`print_agent.py` lines 64, 66). -/
def strftimeLabel (c : Civil) : String :=
  pad2 c.month ++ "/" ++ pad2 c.day ++ "/" ++ pad4 c.year ++ " "
    ++ pad2 (hour12 c.hour) ++ ":" ++ pad2 c.minute ++ " "
    ++ (if c.hour < 12 then "AM" else "PM")

/-- Model of `dt.astimezone()` converting to the local timezone `tz` (minutes
east of UTC): a naive value is reinterpreted as local time unchanged; an
offset-aware value is shifted by `tz - offset` minutes, `none` on the
`OverflowError` range violation. -/
def astimezoneLocal (c : Civil) (off : Option Int) (tz : Int) : Option Civil :=
  match off with
  | none => some c
  | some o => shiftCivil c (tz - o)

/-- The `time_str` computation of `generate_zpl_label` (`print_agent.py`
lines 61-66): the whole `try` block — parse, `astimezone`, `strftime` — falls
back to `datetime.now()` (the `now` argument here) on any exception. -/
def timeString (created_at : String) (now : Civil) (tz : Int) : String :=
  match fromisoformat (replaceZ created_at) with
  | some (c, off) =>
    match astimezoneLocal c off tz with
    | some c2 => strftimeLabel c2
    | none => strftimeLabel now
  | none => strftimeLabel now

/-- The `patient_line` computation of `generate_zpl_label` (`print_agent.py`
line 68): `f"Name: ..." if patient_name else ""`. -/
def patientLine (patient_name : String) : String :=
  if patient_name.isEmpty then "" else "Name: " ++ patient_name

/-- The `_vy` helper of `generate_zpl_label` (`print_agent.py` lines 91-93):
convert a visual top-down Y coordinate to the rotated ZPL `^FO` X coordinate,
`406 - visual_y - element_height`. -/
def vy (visual_y height : Int) : Int := 406 - visual_y - height

/-- The `generate_zpl_label` function (`print_agent.py` lines 36-120): the
ZPL f-string with every `^FO` X coordinate computed by `_vy`, already
stripped of the surrounding newlines (the trailing `.strip()` of line 119).
`now` stands for `datetime.now()` and `tz` for the local UTC offset in
minutes, the two ambient inputs of the Python code. -/
def generate_zpl_label (rx_number store_id patient_name created_at : String)
    (now : Civil) (tz : Int) : String :=
  let time_str := timeString created_at now tz
  let patient_line := patientLine patient_name
  "^XA\n^PW406\n^LL659\n^CF0,20\n^FWR\n\n~SD25\n\n^FO"
    ++ toString (vy 70 34) ++ ",20^A0R,34,34^FD*** REFILL REQUEST ***^FS\n\n^FO"
    ++ toString (vy 110 50) ++ ",20^A0R,50,50^FDRx# " ++ rx_number ++ "^FS\n\n^FO"
    ++ toString (vy 166 24) ++ ",20^A0R,24,24^FD" ++ patient_line ++ "^FS\n\n^FO"
    ++ toString (vy 196 20) ++ ",20^A0R,20,20^FDStore: " ++ store_id ++ "^FS\n^FO"
    ++ toString (vy 196 20) ++ ",300^A0R,20,20^FDSubmitted: " ++ time_str ++ "^FS\n\n^FO"
    ++ toString (vy 224 2) ++ ",20^GB2,620,2^FS\n^FO"
    ++ toString (vy 232 22) ++ ",20^A0R,22,22^FDPlease pull and process.^FS\n\n^FO"
    ++ toString (vy 262 50) ++ ",20^BY2,2,50^BCR,50,Y,N,N^FD" ++ rx_number ++ "^FS\n\n^XZ"

/-! Specification-side view of the label layout (spec section 4.5): a
declarative table of visual positions and extents, every entry rendered into
its `^FO` coordinate through the single transform function `vy`.  Used to
state that the renderer is exactly this table-driven layout. -/

/-- The visual layout table: visual Y position and element extent (height) of
every positioned field of the label, in label order, as listed in the layout
comment of `generate_zpl_label` (`print_agent.py` lines 80-89). -/
def zplVisualTable : List (Int × Int) :=
  [(70, 34), (110, 50), (166, 24), (196, 20), (196, 20),
   (224, 2), (232, 22), (262, 50)]

/-- The literal text of the label between consecutive `^FO` X coordinates:
chunk 0 precedes the first coordinate, chunk `i` follows coordinate `i`.
No chunk contains a positioned coordinate. -/
def zplChunks (rx_number store_id patient_line time_str : String) :
    List String :=
  ["^XA\n^PW406\n^LL659\n^CF0,20\n^FWR\n\n~SD25\n\n^FO",
   ",20^A0R,34,34^FD*** REFILL REQUEST ***^FS\n\n^FO",
   ",20^A0R,50,50^FDRx# " ++ rx_number ++ "^FS\n\n^FO",
   ",20^A0R,24,24^FD" ++ patient_line ++ "^FS\n\n^FO",
   ",20^A0R,20,20^FDStore: " ++ store_id ++ "^FS\n^FO",
   ",300^A0R,20,20^FDSubmitted: " ++ time_str ++ "^FS\n\n^FO",
   ",20^GB2,620,2^FS\n^FO",
   ",20^A0R,22,22^FDPlease pull and process.^FS\n\n^FO",
   ",20^BY2,2,50^BCR,50,Y,N,N^FD" ++ rx_number ++ "^FS\n\n^XZ"]

/-- Assemble a label from the literal chunks and the visual layout table: the
`^FO` X coordinate of every positioned field is obtained from its table entry
through the transform `vy`, and from nowhere else. -/
def zplAssemble : List String → List (Int × Int) → String
  | [], _ => ""
  | c :: cs, [] => c ++ zplAssemble cs []
  | c :: cs, p :: ps => c ++ toString (vy p.1 p.2) ++ zplAssemble cs ps

/-- Specification-side well-formedness of an `rxNumber`, read off the claim:
exactly 7 characters, all digits, first digit one of 2, 4, 6, 8. -/
def rxWellFormed (v : String) : Prop :=
  v.data.length = 7 ∧ v.data.all Char.isDigit = true
    ∧ v.data.headD ' ' ∈ ['2', '4', '6', '8']

instance (v : String) : Decidable (rxWellFormed v) := by
  unfold rxWellFormed; infer_instance

/-! Model of the Agent Worker loop body (`print_agent.py` `poll_and_print`,
lines 183-232): one poll cycle claims the pending batch and processes each
claimed request in order — render, transmit (or console dump when no printer
is configured), report. -/

/-- The label the agent renders for a claimed request (`print_agent.py`
lines 197-202): the agent passes its own configured `store_id` and the
fields of the response. -/
def agentLabel (store_id : String) (now : Civil) (tz : Int) (s : Snapshot) :
    String :=
  generate_zpl_label s.rx_number store_id s.patient_name s.created_at now tz

/-- Observable state of one poll cycle: the server database after the
reports, the ZPL payloads handed to the printer transport, and the ZPL
payloads dumped to the console. -/
structure AgentStep where
  db : List Rec
  sent : List String
  console : List String
deriving DecidableEq

/-- Processing of one claimed request (`print_agent.py` lines 195-225):
render the label; if a printer is configured (`if printer_ip:`), transmit and
report success or failure; otherwise dump to the console, treat the print as
successful, and report success.  Reports are `mark_printed` /
`mark_print_error` on the server database. -/
def processOne (printer_ip : String) (transportOk : String → Bool)
    (store_id : String) (now : Civil) (tz : Int) (st : AgentStep)
    (s : Snapshot) : AgentStep :=
  let zpl := agentLabel store_id now tz s
  if printer_ip.isEmpty then
    { db := mark_printed st.db s.id, sent := st.sent,
      console := st.console ++ [zpl] }
  else if transportOk zpl then
    { db := mark_printed st.db s.id, sent := st.sent ++ [zpl],
      console := st.console }
  else
    { db := mark_print_error st.db s.id, sent := st.sent ++ [zpl],
      console := st.console }

/-- One iteration of the agent poll loop (`print_agent.py` lines 183-226):
claim the pending batch for the agent's store from the server, then process
each claimed request in the order returned. -/
def pollCycle (stores : List String) (db : List Rec) (store_id printer_ip : String)
    (transportOk : String → Bool) (serverNow : String) (agentNow : Civil)
    (tz : Int) : Except Unit AgentStep :=
  match get_pending stores db store_id serverNow with
  | .error e => .error e
  | .ok (reqs, db1) =>
    .ok (reqs.foldl (processOne printer_ip transportOk store_id agentNow tz)
      ⟨db1, [], []⟩)

/-- Interleaved execution of two `get_pending` invocations for the same
store: the handler runs its SELECT (`selectPending`) and its UPDATE
(`applyClaim`) as two separate statements, and in this schedule both SELECTs
run before either UPDATE.  Returns the two response bodies. -/
def interleavedDoubleClaim (db : List Rec) (sid : String) (t1 t2 : String) :
    List Snapshot × List Snapshot :=
  let rows1 := selectPending db sid
  let rows2 := selectPending db sid
  let db1 := applyClaim db (claimIds rows1) t1
  let _db2 := applyClaim db1 (claimIds rows2) t2
  (rows1.map snapshotOf, rows2.map snapshotOf)

/-! Concrete fixtures used by witnesses and counterexamples. -/

/-- A store state holding one pending request for store 157. -/
def dbOnePending : List Rec :=
  [⟨"a1b2c3d4", "2468012", "157", Status.pending,
    "2026-01-01T00:00:00+00:00", none, "J"⟩]

/-- A store state holding one already-printed request. -/
def dbOnePrinted : List Rec :=
  [⟨"b2c3d4e5", "2468012", "157", Status.printed,
    "2026-01-01T00:00:00+00:00", none, "J"⟩]

/-- The store state after the claim of `dbOnePending`: the record is
`printing` with `printed_at` stamped. -/
def dbOneClaimed : List Rec :=
  [⟨"a1b2c3d4", "2468012", "157", Status.printing,
    "2026-01-01T00:00:00+00:00", some "t1", "J"⟩]

/-- Expected observable outcome of one console-mode poll cycle over
`dbOnePending`: the record reported printed, nothing transmitted, the label
dumped to the console. -/
def consoleRunResult : AgentStep :=
  ⟨[⟨"a1b2c3d4", "2468012", "157", Status.printed,
     "2026-01-01T00:00:00+00:00", some "t1", "J"⟩], [],
   [agentLabel "157" ⟨2026, 1, 2, 3, 4, 5⟩ 0
      ⟨"a1b2c3d4", "2468012", "157", "2026-01-01T00:00:00+00:00", "J"⟩]⟩

/-! Helper lemmas about the store operations. -/

theorem strLeChars_trans : ∀ a b c : List Char,
    strLeChars a b = true → strLeChars b c = true → strLeChars a c = true := by
  intro a
  induction a with
  | nil => intro b c _ _; rfl
  | cons x xs ih =>
    intro b c hab hbc
    cases b with
    | nil => simp [strLeChars] at hab
    | cons y ys =>
      cases c with
      | nil => simp [strLeChars] at hbc
      | cons z zs =>
        simp only [strLeChars] at hab hbc ⊢
        by_cases hxy : x = y
        · subst hxy
          by_cases hyz : x = z
          · subst hyz
            simp only [if_pos rfl] at hab hbc ⊢
            exact ih ys zs (by simpa using hab) (by simpa using hbc)
          · simpa [hyz] using hbc
        · by_cases hyz : y = z
          · subst hyz; simpa [hxy] using hab
          · have h1 : x < y := by simpa [hxy] using hab
            have h2 : y < z := by simpa [hyz] using hbc
            have hxz : x ≠ z := ne_of_lt (lt_trans h1 h2)
            simp [hxz, lt_trans h1 h2]

theorem strLeChars_total : ∀ a b : List Char,
    (strLeChars a b || strLeChars b a) = true := by
  intro a
  induction a with
  | nil => intro b; simp [strLeChars]
  | cons x xs ih =>
    intro b
    cases b with
    | nil => simp [strLeChars]
    | cons y ys =>
      by_cases hxy : x = y
      · subst hxy; simpa [strLeChars] using ih ys
      · rcases lt_or_gt_of_ne hxy with h | h
        · simp [strLeChars, hxy, h]
        · simp [strLeChars, hxy, Ne.symm hxy, h, not_lt_of_gt h]

instance : IsTotal Rec recCreatedLe :=
  ⟨fun a b => (Bool.or_eq_true _ _).mp
    (strLeChars_total a.created_at.data b.created_at.data)⟩

instance : IsTrans Rec recCreatedLe :=
  ⟨fun _ _ _ hab hbc => strLeChars_trans _ _ _ hab hbc⟩

theorem mem_selectPending {db : List Rec} {sid : String} {r : Rec} :
    r ∈ selectPending db sid ↔ r ∈ db ∧ pendingFor sid r := by
  unfold selectPending
  rw [List.mem_insertionSort, List.mem_filter]
  simp

theorem selectPending_sorted (db : List Rec) (sid : String) :
    (selectPending db sid).Pairwise (fun a b => createdLe a b = true) := by
  unfold selectPending
  exact List.Pairwise.imp (fun hab => hab)
    (List.sorted_insertionSort recCreatedLe _)

theorem mem_claimIds {rows : List Rec} {x : String} :
    x ∈ claimIds rows ↔ ∃ r ∈ rows, r.id = x := by
  simp [claimIds]

theorem applyClaim_nil (db : List Rec) (now : String) :
    applyClaim db [] now = db := by
  simp [applyClaim]

theorem get_pending_eq {stores : List String} {db : List Rec} {sid : String}
    {now : String} (h : sid ∈ stores) :
    get_pending stores db sid now
      = .ok ((selectPending db sid).map snapshotOf,
             applyClaim db (claimIds (selectPending db sid)) now) := by
  unfold get_pending
  rw [if_neg (by simpa using h)]
  by_cases he : (selectPending db sid).isEmpty
  · have hnil : selectPending db sid = [] := List.isEmpty_iff.mp he
    simp [hnil, applyClaim_nil, claimIds]
  · simp [he]

theorem get_pending_inv {stores : List String} {db : List Rec} {sid now : String}
    {S : List Snapshot} {db' : List Rec}
    (h : get_pending stores db sid now = .ok (S, db')) :
    sid ∈ stores ∧ S = (selectPending db sid).map snapshotOf
      ∧ db' = applyClaim db (claimIds (selectPending db sid)) now := by
  by_cases hs : sid ∈ stores
  · rw [get_pending_eq hs] at h
    injection h with h
    injection h with h1 h2
    exact ⟨hs, h1.symm, h2.symm⟩
  · unfold get_pending at h
    rw [if_pos hs] at h
    cases h

theorem mem_claimIds_of_mem {rows : List Rec} {r : Rec} (h : r ∈ rows) :
    r.id ∈ claimIds rows :=
  mem_claimIds.mpr ⟨r, h, rfl⟩

theorem claimIds_iff_pendingFor {db : List Rec} {sid : String} {r : Rec}
    (hnd : (db.map Rec.id).Nodup) (hr : r ∈ db) :
    r.id ∈ claimIds (selectPending db sid) ↔ pendingFor sid r := by
  constructor
  · intro hx
    rcases mem_claimIds.mp hx with ⟨r', hr', hid⟩
    rcases mem_selectPending.mp hr' with ⟨hr'db, hp⟩
    have : r' = r := List.inj_on_of_nodup_map hnd hr'db hr hid
    exact this ▸ hp
  · intro hp
    exact mem_claimIds_of_mem (mem_selectPending.mpr ⟨hr, hp⟩)

theorem applyClaim_eq_pendingMap {db : List Rec} {sid now : String}
    (hnd : (db.map Rec.id).Nodup) :
    applyClaim db (claimIds (selectPending db sid)) now
      = db.map (fun r =>
          if pendingFor sid r then
            { r with status := Status.printing, printed_at := some now }
          else r) := by
  unfold applyClaim
  exact List.map_congr_left (fun r hr =>
    if_congr (claimIds_iff_pendingFor hnd hr) rfl rfl)

theorem applyClaim_claims_printing {db : List Rec} {sid now : String} {r0 : Rec}
    (hr0 : r0 ∈ selectPending db sid) :
    ∀ r' ∈ applyClaim db (claimIds (selectPending db sid)) now,
      r'.id = r0.id → r'.status = Status.printing := by
  intro r' hr' hid
  rcases List.mem_map.mp hr' with ⟨r1, _hr1, rfl⟩
  by_cases h1 : r1.id ∈ claimIds (selectPending db sid)
  · simp [h1]
  · exfalso
    apply h1
    have : r1.id = r0.id := by simpa [h1] using hid
    exact this ▸ mem_claimIds_of_mem hr0

theorem claim_then_select_disjoint {db : List Rec} {sid now : String}
    {r1 r2 : Rec} (h1 : r1 ∈ selectPending db sid)
    (h2 : r2 ∈ selectPending (applyClaim db (claimIds (selectPending db sid)) now) sid) :
    r1.id ≠ r2.id := by
  intro heq
  rcases mem_selectPending.mp h2 with ⟨h2mem, h2pend⟩
  have hst := applyClaim_claims_printing h1 r2 h2mem heq.symm
  rw [h2pend.2] at hst
  cases hst

theorem foldl_mark_printed (l : List String) (db : List Rec) :
    l.foldl mark_printed db
      = db.map (fun r =>
          if r.id ∈ l then { r with status := Status.printed } else r) := by
  induction l generalizing db with
  | nil => simp
  | cons i is ih =>
    rw [List.foldl_cons, ih]
    unfold mark_printed
    rw [List.map_map]
    apply List.map_congr_left
    intro r _
    by_cases hi : r.id = i <;> by_cases his : r.id ∈ is <;>
      simp [markPrintedRec, Function.comp, hi, his]

theorem foldl_processOne_console {transportOk : String → Bool} {sid : String}
    {anow : Civil} {tz : Int} (l : List Snapshot) (st : AgentStep) :
    l.foldl (processOne "" transportOk sid anow tz) st
      = ⟨(l.map Snapshot.id).foldl mark_printed st.db, st.sent,
         st.console ++ l.map (agentLabel sid anow tz)⟩ := by
  induction l generalizing st with
  | nil => cases st; simp
  | cons s ss ih =>
    rw [List.foldl_cons, ih]
    have hempty : ("" : String).isEmpty = true := rfl
    simp [processOne, hempty, List.append_assoc]

theorem set_status_printed_self {r : Rec} (h : r.status = Status.printed) :
    { r with status := Status.printed } = r := by
  cases r
  simp only at h
  rw [h]

theorem validate_rx_error_iff (v : String) :
    (∃ e, validate_rx_number v = .error e) ↔ ¬ rxWellFormed (pyStrip v) := by
  unfold validate_rx_number rxWellFormed
  by_cases h1 : ((pyStrip v).data.isEmpty || !(pyStrip v).data.all Char.isDigit) = true
  · rw [if_pos h1]
    simp only [Bool.or_eq_true, List.isEmpty_iff, Bool.not_eq_true'] at h1
    constructor
    · rintro - ⟨hlen, hdig, -⟩
      rcases h1 with h1 | h1
      · rw [h1] at hlen; cases hlen
      · rw [h1] at hdig; cases hdig
    · intro _; exact ⟨_, rfl⟩
  · rw [if_neg h1]
    simp only [Bool.or_eq_true, List.isEmpty_iff, Bool.not_eq_true', not_or] at h1
    obtain ⟨-, hdig⟩ := h1
    rw [Bool.not_eq_false] at hdig
    by_cases h2 : (pyStrip v).data.length ≠ 7
    · rw [if_pos h2]
      exact ⟨fun _ => fun hwf => h2 hwf.1, fun _ => ⟨_, rfl⟩⟩
    · rw [if_neg h2]
      push_neg at h2
      by_cases h3 :
          (!(['2', '4', '6', '8'].contains ((pyStrip v).data.headD ' '))) = true
      · rw [if_pos h3]
        simp only [Bool.not_eq_true'] at h3
        constructor
        · rintro - ⟨-, -, hmem⟩
          have hc : (['2', '4', '6', '8'].contains
              ((pyStrip v).data.headD ' ')) = true := by simpa using hmem
          rw [h3] at hc; cases hc
        · intro _; exact ⟨_, rfl⟩
      · rw [if_neg h3]
        simp only [Bool.not_eq_true', Bool.not_eq_false] at h3
        constructor
        · rintro ⟨e, he⟩; cases he
        · intro hwf
          exact absurd ⟨h2, hdig, by simpa using h3⟩ hwf

theorem validate_rx_ok (v : String) (hw : rxWellFormed (pyStrip v)) :
    validate_rx_number v = .ok (pyStrip v) := by
  rcases hv : validate_rx_number v with e | w
  · exact absurd ((validate_rx_error_iff v).mp ⟨e, hv⟩) (not_not_intro hw)
  · unfold validate_rx_number at hv
    split at hv
    · cases hv
    · split at hv
      · cases hv
      · split at hv
        · cases hv
        · injection hv with h; rw [← h]

theorem validate_store_error_iff (stores : List String) (v : String) :
    (∃ e, validate_store_id stores v = .error e) ↔ pyStrip v ∉ stores := by
  unfold validate_store_id
  by_cases h : pyStrip v ∈ stores <;> simp [h]

theorem validate_store_ok (stores : List String) (v : String)
    (h : pyStrip v ∈ stores) : validate_store_id stores v = .ok (pyStrip v) := by
  unfold validate_store_id
  rw [if_pos h]

/-- C6 (confirmed): `markPrinted` transitions `printing` to `printed`, is
idempotent, is a no-op on an unknown id and on an already-printed batch
(never an error: the model is total), and never moves a `printed` record to
another status. -/
theorem markPrinted_idempotent_spec : ∀ (db : List Rec) (rid : String),
    (∀ r ∈ db, r.id = rid → r.status = Status.printing →
      { r with status := Status.printed } ∈ mark_printed db rid) ∧
    ((∀ r ∈ db, r.id ≠ rid) → mark_printed db rid = db) ∧
    ((∀ r ∈ db, r.id = rid → r.status = Status.printed) →
      mark_printed db rid = db) ∧
    mark_printed (mark_printed db rid) rid = mark_printed db rid ∧
    (∀ r : Rec, r.status = Status.printed →
      (markPrintedRec rid r).status = Status.printed) := by
  intro db rid
  refine ⟨?_, ?_, ?_, ?_, ?_⟩
  · intro r hr hid _
    exact List.mem_map.mpr ⟨r, hr, by simp [markPrintedRec, hid]⟩
  · intro h
    unfold mark_printed
    rw [List.map_congr_left (g := id)
      (fun r hr => by simp [markPrintedRec, h r hr]), List.map_id]
  · intro h
    unfold mark_printed
    rw [List.map_congr_left (g := id) (fun r hr => ?_), List.map_id]
    by_cases hid : r.id = rid
    · simp only [markPrintedRec, if_pos hid, id]
      exact set_status_printed_self (h r hr hid)
    · simp [markPrintedRec, hid]
  · unfold mark_printed
    rw [List.map_map]
    refine List.map_congr_left (fun r _ => ?_)
    by_cases hid : r.id = rid <;> simp [markPrintedRec, Function.comp, hid]
  · intro r h
    by_cases hid : r.id = rid <;> simp [markPrintedRec, hid, h]

/-- C6 witness: on a store holding one already-printed record, `markPrinted`
of that id leaves the store unchanged, and a second call equals the first. -/
theorem markPrinted_idempotent_spec_witness :
    mark_printed dbOnePrinted "b2c3d4e5" = dbOnePrinted ∧
    mark_printed (mark_printed dbOnePrinted "b2c3d4e5") "b2c3d4e5"
      = mark_printed dbOnePrinted "b2c3d4e5" := by
  have h := markPrinted_idempotent_spec dbOnePrinted "b2c3d4e5"
  exact ⟨h.2.2.1 (by decide), h.2.2.2.1⟩

/-- C2 counterexample: `mark_print_error` on a record whose status is
`printed` resets it to `pending` — the code has a transition out of
`printed`, contrary to the claim. -/
theorem printed_record_reset_by_markPrintFailed :
    dbOnePrinted.map Rec.status = [Status.printed] ∧
    (mark_print_error dbOnePrinted "b2c3d4e5").map Rec.status
      = [Status.pending] := by
  decide

/-- C2 (amended): every status change is made by one of the four handlers,
as follows — `claimPending` moves only `pending` records of the store to
`printing`; `markPrinted` either leaves a record unchanged or sets its
status to `printed` (whatever it was); `markPrintFailed` either leaves a
record unchanged or sets its status to `pending` and clears `printed_at`
(including on a `printed` record); `submit` only appends one new `pending`
record and never touches existing rows. -/
theorem status_changes_only_by_handlers :
    (∀ (stores : List String) (db : List Rec) (sid now : String)
        (S : List Snapshot) (db' : List Rec), (db.map Rec.id).Nodup →
        get_pending stores db sid now = .ok (S, db') →
        ∀ r' ∈ db', ∃ r ∈ db, r'.id = r.id ∧
          (r' = r ∨ (r.status = Status.pending ∧ r.store_id = sid ∧
            r' = { r with status := Status.printing, printed_at := some now }))) ∧
    (∀ (db : List Rec) (rid : String), ∀ r' ∈ mark_printed db rid,
        ∃ r ∈ db, r'.id = r.id ∧
          (r' = r ∨ r' = { r with status := Status.printed })) ∧
    (∀ (db : List Rec) (rid : String), ∀ r' ∈ mark_print_error db rid,
        ∃ r ∈ db, r'.id = r.id ∧
          (r' = r ∨ r' = { r with status := Status.pending, printed_at := none })) ∧
    (∀ (stores : List String) (db : List Rec) (rx sid nm newId now id : String)
        (db' : List Rec), submit stores db rx sid nm newId now = .ok (id, db') →
        ∃ nr : Rec, db' = db ++ [nr] ∧ nr.status = Status.pending) := by
  refine ⟨?_, ?_, ?_, ?_⟩
  · intro stores db sid now S db' hnd h r' hr'
    obtain ⟨-, -, hdb'⟩ := get_pending_inv h
    rw [hdb', applyClaim_eq_pendingMap hnd] at hr'
    rcases List.mem_map.mp hr' with ⟨r, hr, rfl⟩
    by_cases hp : pendingFor sid r
    · exact ⟨r, hr, by simp [if_pos hp], Or.inr ⟨hp.2, hp.1, by rw [if_pos hp]⟩⟩
    · exact ⟨r, hr, by simp [if_neg hp], Or.inl (by rw [if_neg hp])⟩
  · intro db rid r' hr'
    rcases List.mem_map.mp hr' with ⟨r, hr, rfl⟩
    by_cases hid : r.id = rid
    · exact ⟨r, hr, by simp [markPrintedRec, hid], Or.inr (by simp [markPrintedRec, hid])⟩
    · exact ⟨r, hr, by simp [markPrintedRec, hid], Or.inl (by simp [markPrintedRec, hid])⟩
  · intro db rid r' hr'
    rcases List.mem_map.mp hr' with ⟨r, hr, rfl⟩
    by_cases hid : r.id = rid
    · exact ⟨r, hr, by simp [markPrintErrorRec, hid],
        Or.inr (by simp [markPrintErrorRec, hid])⟩
    · exact ⟨r, hr, by simp [markPrintErrorRec, hid],
        Or.inl (by simp [markPrintErrorRec, hid])⟩
  · intro stores db rx sid nm newId now id db' h
    unfold submit at h
    rcases hrx : validate_rx_number rx with e | rx' <;> rw [hrx] at h
    · cases h
    · rcases hst : validate_store_id stores sid with e | sid' <;> rw [hst] at h
      · cases h
      · injection h with h
        injection h with h1 h2
        exact ⟨_, h2.symm, rfl⟩

/-- C2 witness: instantiates the `markPrintFailed` characterization on the
one-printed-record store. -/
theorem status_changes_only_by_handlers_witness :
    ∃ r ∈ dbOnePrinted,
      (⟨"b2c3d4e5", "2468012", "157", Status.pending,
        "2026-01-01T00:00:00+00:00", none, "J"⟩ : Rec).id = r.id ∧
      ((⟨"b2c3d4e5", "2468012", "157", Status.pending,
         "2026-01-01T00:00:00+00:00", none, "J"⟩ : Rec) = r ∨
       (⟨"b2c3d4e5", "2468012", "157", Status.pending,
         "2026-01-01T00:00:00+00:00", none, "J"⟩ : Rec)
         = { r with status := Status.pending, printed_at := none }) :=
  status_changes_only_by_handlers.2.2.1 dbOnePrinted "b2c3d4e5" _ (by decide)

/-- C4 counterexample: the input `"2468012 "` (trailing blank, 8 characters)
is malformed in the claim's sense, yet `submit` accepts it, because the
validator strips whitespace before checking. -/
theorem padded_rx_accepted_despite_malformed :
    ¬ rxWellFormed "2468012 " ∧
    submit ["157"] [] "2468012 " "157" "J" "newid001" "t1"
      = .ok ("newid001",
          [⟨"newid001", "2468012", "157", Status.pending, "t1", none, "J"⟩]) := by
  decide

/-- C4 (amended): `submit` fails with a validation error if and only if the
whitespace-stripped `rxNumber` is malformed (not exactly 7 characters, a
non-digit, or first digit not in 2/4/6/8) or the stripped `storeId` is not a
known store; the listed examples reject and accept as claimed; on success it
appends exactly one new `pending` record built from the stripped inputs and
returns its id (on failure the state is untouched: the model only produces a
successor state in the `.ok` case). -/
theorem submit_validation_spec :
    ∀ (stores : List String) (db : List Rec) (rx sid nm newId now : String),
    ((∃ e, submit stores db rx sid nm newId now = .error e)
        ↔ (¬ rxWellFormed (pyStrip rx) ∨ pyStrip sid ∉ stores)) ∧
    (∀ (id : String) (db' : List Rec),
        submit stores db rx sid nm newId now = .ok (id, db') →
        id = newId ∧ db' = db ++
          [⟨newId, pyStrip rx, pyStrip sid, Status.pending, now, none, pyStrip nm⟩]) ∧
    submit ["157"] [] "1234567" "157" "" "i" "t"
      = .error "Prescription number must start with 2, 4, 6, or 8" ∧
    submit ["157"] [] "123456" "157" "" "i" "t"
      = .error "Prescription number must be exactly 7 digits" ∧
    submit ["157"] [] "24680aa" "157" "" "i" "t"
      = .error "Prescription number must contain only digits" ∧
    submit ["157"] [] "2468012" "157" "" "i" "t"
      = .ok ("i", [⟨"i", "2468012", "157", Status.pending, "t", none, ""⟩]) := by
  intro stores db rx sid nm newId now
  refine ⟨⟨?_, ?_⟩, ?_, by decide, by decide, by decide, by decide⟩
  · rintro ⟨e, he⟩
    by_contra hno
    push_neg at hno
    obtain ⟨hwf, hst⟩ := hno
    unfold submit at he
    rw [validate_rx_ok rx hwf, validate_store_ok stores sid hst] at he
    cases he
  · intro h
    rcases h with hbad | hbad
    · rcases (validate_rx_error_iff rx).mpr hbad with ⟨e, he⟩
      exact ⟨e, by unfold submit; rw [he]⟩
    · by_cases hwf : rxWellFormed (pyStrip rx)
      · rcases (validate_store_error_iff stores sid).mpr hbad with ⟨e, he⟩
        exact ⟨e, by unfold submit; rw [validate_rx_ok rx hwf, he]⟩
      · rcases (validate_rx_error_iff rx).mpr hwf with ⟨e, he⟩
        exact ⟨e, by unfold submit; rw [he]⟩
  · intro id db' h
    unfold submit at h
    rcases hrx : validate_rx_number rx with e | rx' <;> rw [hrx] at h
    · cases h
    · rcases hst : validate_store_id stores sid with e | sid' <;> rw [hst] at h
      · cases h
      · have hrx' : rx' = pyStrip rx := by
          unfold validate_rx_number at hrx
          split at hrx
          · cases hrx
          · split at hrx
            · cases hrx
            · split at hrx
              · cases hrx
              · injection hrx with h'; rw [← h']
        have hsid' : sid' = pyStrip sid := by
          unfold validate_store_id at hst
          split at hst
          · injection hst with h'; rw [← h']
          · cases hst
        injection h with h
        injection h with h1 h2
        subst hrx' hsid'
        exact ⟨h1.symm, h2.symm⟩

/-- C1 (confirmed): for a known store, `claimPending` returns the snapshots
of exactly the pending records of that store, ordered ascending by
`created_at` (bytewise/BINARY collation), transitions each of them to
`printing` with `printed_at` stamped while leaving every other record
unchanged, and on an empty pending set returns `[]` with the store
untouched.  The `Nodup` hypothesis is the PRIMARY KEY invariant of the
`id` column. -/
theorem claimPending_selects_orders_transitions
    (stores : List String) (db : List Rec) (sid now : String)
    (h : sid ∈ stores) (hnd : (db.map Rec.id).Nodup) :
    ∃ (S : List Snapshot) (db' : List Rec),
      get_pending stores db sid now = .ok (S, db') ∧
      S.Pairwise (fun a b => strLeChars a.created_at.data b.created_at.data = true) ∧
      (∀ s, s ∈ S ↔ ∃ r ∈ db, r.store_id = sid ∧ r.status = Status.pending
        ∧ s = snapshotOf r) ∧
      db' = db.map (fun r =>
        if pendingFor sid r then
          { r with status := Status.printing, printed_at := some now }
        else r) ∧
      ((∀ r ∈ db, ¬ pendingFor sid r) → S = [] ∧ db' = db) := by
  refine ⟨_, _, get_pending_eq h, ?_, ?_, applyClaim_eq_pendingMap hnd, ?_⟩
  · exact List.pairwise_map.mpr ((selectPending_sorted db sid).imp (fun hab => hab))
  · intro s
    constructor
    · intro hs
      rcases List.mem_map.mp hs with ⟨r, hr, rfl⟩
      rcases mem_selectPending.mp hr with ⟨hrdb, hp⟩
      exact ⟨r, hrdb, hp.1, hp.2, rfl⟩
    · rintro ⟨r, hrdb, hsid, hst, rfl⟩
      exact List.mem_map_of_mem _ (mem_selectPending.mpr ⟨hrdb, hsid, hst⟩)
  · intro hnone
    have hsel : selectPending db sid = [] := by
      rw [List.eq_nil_iff_forall_not_mem]
      intro r hr
      rcases mem_selectPending.mp hr with ⟨hrdb, hp⟩
      exact hnone r hrdb hp
    constructor
    · rw [hsel]; rfl
    · rw [applyClaim_eq_pendingMap hnd,
        List.map_congr_left (g := id)
          (fun r hr => by rw [if_neg (hnone r hr)]; rfl),
        List.map_id]

/-- C1 witness: the claim of the one-pending-record store succeeds. -/
theorem claimPending_selects_orders_transitions_witness :
    ∃ (S : List Snapshot) (db' : List Rec),
      get_pending ["157"] dbOnePending "157" "t1" = .ok (S, db') := by
  rcases claimPending_selects_orders_transitions ["157"] dbOnePending "157" "t1"
    (by decide) (by decide) with ⟨S, db', h1, -⟩
  exact ⟨S, db', h1⟩

/-- C5 (confirmed): two immediately successive `claimPending` calls for the
same store return record sets with no id in common — the first call moved
everything it returned out of `pending`. -/
theorem claimPending_twice_disjoint
    (stores : List String) (db : List Rec) (sid now1 now2 : String)
    (S1 S2 : List Snapshot) (db1 db2 : List Rec)
    (h1 : get_pending stores db sid now1 = .ok (S1, db1))
    (h2 : get_pending stores db1 sid now2 = .ok (S2, db2)) :
    (S1.map Snapshot.id).inter (S2.map Snapshot.id) = [] := by
  obtain ⟨-, hS1, hdb1⟩ := get_pending_inv h1
  obtain ⟨-, hS2, -⟩ := get_pending_inv h2
  subst hS1 hdb1 hS2
  rw [List.inter]
  refine List.filter_eq_nil_iff.mpr (fun x hx => ?_)
  rcases List.mem_map.mp hx with ⟨s1, hs1, rfl⟩
  rcases List.mem_map.mp hs1 with ⟨r1, hr1, rfl⟩
  suffices hsuff : (snapshotOf r1).id ∉
      ((selectPending (applyClaim db (claimIds (selectPending db sid)) now1) sid).map
        snapshotOf).map Snapshot.id by
    simpa using hsuff
  intro hmem
  rcases List.mem_map.mp hmem with ⟨s2, hs2, hid⟩
  rcases List.mem_map.mp hs2 with ⟨r2, hr2, rfl⟩
  exact claim_then_select_disjoint hr1 hr2 hid.symm

/-- C5 witness: on the one-pending-record store the first call claims the
record and the second call returns the empty batch; the id sets are
disjoint. -/
theorem claimPending_twice_disjoint_witness :
    (([⟨"a1b2c3d4", "2468012", "157", "2026-01-01T00:00:00+00:00", "J"⟩] :
        List Snapshot).map Snapshot.id).inter
      (([] : List Snapshot).map Snapshot.id) = [] :=
  claimPending_twice_disjoint ["157"] dbOnePending "157" "t1" "t2"
    [⟨"a1b2c3d4", "2468012", "157", "2026-01-01T00:00:00+00:00", "J"⟩] []
    dbOneClaimed dbOneClaimed (by decide) (by decide)

/-- C3 counterexample: `get_pending` runs its SELECT and its UPDATE as two
separate statements with no transaction around them; in the interleaving
where both SELECTs run before either UPDATE, the two invocations both claim
the same record — the operation is not a single atomic read-modify-write. -/
theorem interleaved_claims_overlap :
    (interleavedDoubleClaim dbOnePending "157" "t1" "t2").1
      = [⟨"a1b2c3d4", "2468012", "157", "2026-01-01T00:00:00+00:00", "J"⟩] ∧
    (interleavedDoubleClaim dbOnePending "157" "t1" "t2").2
      = [⟨"a1b2c3d4", "2468012", "157", "2026-01-01T00:00:00+00:00", "J"⟩] := by
  decide

/-- C3 (amended): the SELECT and UPDATE phases of `claimPending` claim
disjoint record sets whenever the two invocations do not interleave — the
second selection, taken after the first invocation's update, shares no id
with the first selection.  Atomicity holds only under such non-interleaved
execution (as with the single-threaded event loop running each handler to
completion), not by a transactional read-modify-write in the code. -/
theorem nonInterleaved_claims_disjoint (db : List Rec) (sid now1 : String) :
    ((selectPending db sid).map Rec.id).inter
      ((selectPending (applyClaim db (claimIds (selectPending db sid)) now1)
          sid).map Rec.id) = [] := by
  rw [List.inter]
  refine List.filter_eq_nil_iff.mpr (fun x hx => ?_)
  rcases List.mem_map.mp hx with ⟨r1, hr1, rfl⟩
  suffices hsuff : r1.id ∉
      (selectPending (applyClaim db (claimIds (selectPending db sid)) now1)
        sid).map Rec.id by
    simpa using hsuff
  intro hmem
  rcases List.mem_map.mp hmem with ⟨r2, hr2, hid⟩
  exact claim_then_select_disjoint hr1 hr2 hid.symm

/-- C4 witness: a whitespace-padded but otherwise valid submission succeeds
and stores the stripped values. -/
theorem submit_validation_spec_witness :
    "i1" = "i1" ∧
    ([⟨"i1", "2468012", "157", Status.pending, "t1", none, "Jo"⟩] : List Rec)
      = [] ++ [⟨"i1", pyStrip " 2468012 ", pyStrip " 157 ", Status.pending,
                "t1", none, pyStrip " Jo "⟩] :=
  (submit_validation_spec ["157"] [] " 2468012 " " 157 " " Jo " "i1" "t1").2.1
    "i1" _ (by decide)

set_option maxRecDepth 4000 in
/-- C7 (confirmed): the renderer is exactly the assembly of the literal
chunk list with the visual layout table, where every `^FO` X coordinate is
produced by the single transform `vy`, and `vy` computes
`406 - visual_y - height`. -/
theorem label_layout_single_transform
    (rx sid nm t : String) (now : Civil) (tz : Int) :
    (generate_zpl_label rx sid nm t now tz
        = zplAssemble (zplChunks rx sid (patientLine nm) (timeString t now tz))
            zplVisualTable) ∧
    ∀ v h : Int, vy v h = 406 - v - h := by
  constructor
  · simp [generate_zpl_label, zplChunks, zplAssemble, zplVisualTable,
      String.append_assoc]
  · intro v h
    rfl

set_option maxRecDepth 4000 in
/-- C8 (confirmed): for every input — the timestamp included, empty or
unparseable — the renderer totally produces a complete label (`^XA` prelude
through the `^FD`-barcode of the rx number and `^XZ` postlude), and on parse
failure the current local time is substituted for the timestamp. -/
theorem label_renders_total_with_fallback
    (rx sid nm t : String) (now : Civil) (tz : Int) :
    (∃ mid, generate_zpl_label rx sid nm t now tz
        = "^XA" ++ mid ++ ("^FD" ++ rx ++ "^FS\n\n^XZ")) ∧
    (fromisoformat (replaceZ t) = none → timeString t now tz = strftimeLabel now) := by
  constructor
  · refine ⟨"\n^PW406\n^LL659\n^CF0,20\n^FWR\n\n~SD25\n\n^FO"
      ++ toString (vy 70 34) ++ ",20^A0R,34,34^FD*** REFILL REQUEST ***^FS\n\n^FO"
      ++ toString (vy 110 50) ++ ",20^A0R,50,50^FDRx# " ++ rx ++ "^FS\n\n^FO"
      ++ toString (vy 166 24) ++ ",20^A0R,24,24^FD" ++ patientLine nm ++ "^FS\n\n^FO"
      ++ toString (vy 196 20) ++ ",20^A0R,20,20^FDStore: " ++ sid ++ "^FS\n^FO"
      ++ toString (vy 196 20) ++ ",300^A0R,20,20^FDSubmitted: "
      ++ timeString t now tz ++ "^FS\n\n^FO"
      ++ toString (vy 224 2) ++ ",20^GB2,620,2^FS\n^FO"
      ++ toString (vy 232 22) ++ ",20^A0R,22,22^FDPlease pull and process.^FS\n\n^FO"
      ++ toString (vy 262 50) ++ ",20^BY2,2,50^BCR,50,Y,N,N", ?_⟩
    simp only [generate_zpl_label]
    simp only [← String.append_assoc]
    rw [String.append_assoc _ (",20^BY2,2,50^BCR,50,Y,N,N" : String) "^FD",
      (by decide : (",20^BY2,2,50^BCR,50,Y,N,N" : String) ++ "^FD"
        = ",20^BY2,2,50^BCR,50,Y,N,N^FD"),
      (by decide : ("^XA" : String)
          ++ "\n^PW406\n^LL659\n^CF0,20\n^FWR\n\n~SD25\n\n^FO"
        = "^XA\n^PW406\n^LL659\n^CF0,20\n^FWR\n\n~SD25\n\n^FO")]
  · intro h
    unfold timeString
    rw [h]

/-- C8 witness: a concrete render with an empty (unparseable) timestamp. -/
theorem label_renders_total_with_fallback_witness :
    (∃ mid, generate_zpl_label "2468012" "157" "" "" ⟨2026, 1, 2, 3, 4, 5⟩ 0
        = "^XA" ++ mid ++ ("^FD" ++ "2468012" ++ "^FS\n\n^XZ")) ∧
    timeString "" ⟨2026, 1, 2, 3, 4, 5⟩ 0 = strftimeLabel ⟨2026, 1, 2, 3, 4, 5⟩ := by
  have h := label_renders_total_with_fallback "2468012" "157" "" "" ⟨2026, 1, 2, 3, 4, 5⟩ 0
  exact ⟨h.1, h.2 (by decide)⟩

set_option maxRecDepth 10000 in
/-- C9 counterexample: a parseable `created_at` whose conversion to local
time overflows the datetime range (year 1, local offset west of UTC) — the
whole `try` block raises, the fallback substitutes the current time, and the
output depends on the clock even though the timestamp was parseable. -/
theorem label_depends_on_now_at_range_overflow :
    (fromisoformat (replaceZ "0001-01-01T00:00:00+00:00")).isSome = true ∧
    generate_zpl_label "2468012" "157" "J" "0001-01-01T00:00:00+00:00"
        ⟨2026, 1, 2, 3, 4, 0⟩ (-300)
      ≠ generate_zpl_label "2468012" "157" "J" "0001-01-01T00:00:00+00:00"
        ⟨2026, 1, 2, 3, 5, 0⟩ (-300) := by
  decide

/-- C9 (amended): rendering is a pure function of its inputs, and whenever
`created_at` parses and its conversion to the local timezone stays inside
the representable datetime range, the output is byte-identical across calls
regardless of the current time; the current time enters only through the
fallback (malformed timestamp, or out-of-range local conversion). -/
theorem label_deterministic_when_convertible
    (rx sid nm t : String) (tz : Int) (c : Civil) (off : Option Int)
    (hp : fromisoformat (replaceZ t) = some (c, off))
    (hs : (astimezoneLocal c off tz).isSome = true) :
    ∀ now1 now2 : Civil,
      generate_zpl_label rx sid nm t now1 tz
        = generate_zpl_label rx sid nm t now2 tz := by
  intro now1 now2
  rcases Option.isSome_iff_exists.mp hs with ⟨c2, hc2⟩
  simp only [generate_zpl_label, timeString, hp, hc2]

/-- C9 witness: two renders of the same parseable timestamp under different
clocks agree. -/
theorem label_deterministic_when_convertible_witness :
    generate_zpl_label "2468012" "157" "J" "2026-10-12T15:04:05+00:00"
        ⟨2000, 1, 1, 0, 0, 0⟩ (-300)
      = generate_zpl_label "2468012" "157" "J" "2026-10-12T15:04:05+00:00"
        ⟨2001, 2, 2, 1, 1, 1⟩ (-300) :=
  label_deterministic_when_convertible "2468012" "157" "J"
    "2026-10-12T15:04:05+00:00" (-300) ⟨2026, 10, 12, 15, 4, 5⟩ (some 0)
    (by decide) (by decide) ⟨2000, 1, 1, 0, 0, 0⟩ ⟨2001, 2, 2, 1, 1, 1⟩

/-- C10 (confirmed): with no printer address configured, one poll cycle
transmits nothing to a printer, writes every claimed label to the console,
and reports success for each claimed request, so every claimed record ends
with status `printed` on the server. -/
theorem console_mode_prints_and_reports
    (stores : List String) (db : List Rec) (sid : String)
    (transportOk : String → Bool) (snow : String) (anow : Civil) (tz : Int)
    (reqs : List Snapshot) (db1 : List Rec) (res : AgentStep)
    (h : get_pending stores db sid snow = .ok (reqs, db1))
    (hp : pollCycle stores db sid "" transportOk snow anow tz = .ok res) :
    res.sent = [] ∧ res.console = reqs.map (agentLabel sid anow tz) ∧
    ∀ s ∈ reqs, ∃ r ∈ res.db, r.id = s.id ∧ r.status = Status.printed := by
  unfold pollCycle at hp
  rw [h] at hp
  injection hp with hp
  subst hp
  rw [foldl_processOne_console]
  refine ⟨rfl, by simp, ?_⟩
  intro s hs
  rw [foldl_mark_printed]
  obtain ⟨-, hS, hdb1⟩ := get_pending_inv h
  subst hS hdb1
  rcases List.mem_map.mp hs with ⟨r0, hr0, rfl⟩
  have hr0db : r0 ∈ db := (mem_selectPending.mp hr0).1
  have hg : (fun r : Rec =>
      if r.id ∈ claimIds (selectPending db sid) then
        { r with status := Status.printing, printed_at := some snow }
      else r) r0 ∈ applyClaim db (claimIds (selectPending db sid)) snow :=
    List.mem_map_of_mem _ hr0db
  have hgid : ((fun r : Rec =>
      if r.id ∈ claimIds (selectPending db sid) then
        { r with status := Status.printing, printed_at := some snow }
      else r) r0).id = r0.id := by
    by_cases hc : r0.id ∈ claimIds (selectPending db sid) <;> simp [hc]
  have hmem : r0.id ∈ ((selectPending db sid).map snapshotOf).map Snapshot.id :=
    List.mem_map.mpr ⟨snapshotOf r0, hs, rfl⟩
  refine ⟨_, List.mem_map_of_mem _ hg, ?_, ?_⟩
  · rw [if_pos (by rw [hgid]; exact hmem)]
    simpa using hgid
  · rw [if_pos (by rw [hgid]; exact hmem)]

set_option maxRecDepth 10000 in
/-- C10 witness: a concrete console-mode cycle over the one-pending-record
store transmits nothing and leaves the record `printed`. -/
theorem console_mode_prints_and_reports_witness :
    consoleRunResult.sent = [] ∧
    ∃ r ∈ consoleRunResult.db, r.id = "a1b2c3d4" ∧ r.status = Status.printed := by
  have h := console_mode_prints_and_reports ["157"] dbOnePending "157"
    (fun _ => false) "t1" ⟨2026, 1, 2, 3, 4, 5⟩ 0
    [⟨"a1b2c3d4", "2468012", "157", "2026-01-01T00:00:00+00:00", "J"⟩]
    dbOneClaimed consoleRunResult (by decide) (by decide)
  exact ⟨h.1, h.2.2
    ⟨"a1b2c3d4", "2468012", "157", "2026-01-01T00:00:00+00:00", "J"⟩ (by decide)⟩

end Refill
